import Mathlib

/-!
Shallow embedding of `src/standalone-packages/react-sandpack/src/utils/sandpack-context.tsx`
(the `SandpackProvider` React component).

Modelling choices:
* JS objects used as string-keyed maps (`IFiles`) become association lists
  with unique keys; `{...files, [k]: v}` / `files[k] = v` becomes `setFile`
  (replace-in-place when present, append when absent — matching JS key
  insertion-order semantics) and property access becomes `lookupFile`.
* `undefined`-able values become `Option`; JS string falsiness (`'' || x`)
  is modelled by `jsOrString`; object truthiness of a present map entry is
  `Option.isSome`.
* `throw new Error(...)` becomes `Except.error`.
* Calls into the external engine (`Manager`) and the external change
  callback are modelled as an emitted `Effect` trace; React `setState` is
  modelled as an immediate state update.
* Function-valued members of the context snapshot (`openFile`,
  `updateFiles`, `updateCurrentFile`, `getManagerTranspilerContext`) are the
  operations themselves and are not part of the data snapshot.
-/

/-- A file: the shape of `IFile` as used by the provider (only `code` is read
or written by this component). -/
structure IFile where
  code : String
deriving DecidableEq, Repr

/-- `IFiles`: mapping from absolute path to file. -/
abbrev Files := List (String × IFile)

/-- Dependency mapping `Record<string, string>`. -/
abbrev Deps := List (String × String)

/-- Property access `files[path]` on the JS object: first (unique) key wins. -/
def lookupFile (path : String) : Files → Option IFile
  | [] => none
  | (k, v) :: rest => if k = path then some v else lookupFile path rest

/-- Key assignment `files[path] = file` (also `{...files, [path]: file}`):
replaces the value in place when the key is present, appends otherwise. -/
def setFile (path : String) (file : IFile) : Files → Files
  | [] => [(path, file)]
  | (k, v) :: rest =>
      if k = path then (path, file) :: rest else (k, v) :: setFile path file rest

/-- One entry of the error sequence, built in `handleMessage` from the
destructured fields of an `action: show-error` message; every field may be
`undefined` on the wire, hence `Option`. -/
structure IModuleError where
  title : Option String
  path : Option String
  message : Option String
  line : Option Int
  column : Option Int
deriving DecidableEq, Repr

/-- An inbound message from the channel, with the fields `handleMessage`
reads. Unknown message kinds are any other `type` string. -/
structure Message where
  type : String
  action : Option String
  state : Option String
  status : Option String
  title : Option String
  path : Option String
  message : Option String
  line : Option Int
  column : Option Int
deriving DecidableEq, Repr

/-- The provider's props (`Props` in the source). Purely presentational
props (`width`, `height`, `className`, `style`, `children`) are omitted;
the two callbacks are modelled by presence flags, their invocations being
recorded in the effect trace. `skipEval` has `defaultProps` value `false`,
so it is a plain `Bool`. -/
structure Props where
  files : Files
  initialPath : Option String
  entry : Option String
  openedPath : Option String
  dependencies : Option Deps
  bundlerURL : Option String
  skipEval : Bool
  template : Option String
  showOpenInCodeSandbox : Option Bool
  hasOnFileChange : Bool
  hasFileResolver : Bool
deriving DecidableEq, Repr

/-- The adapter options built by `getOptions` (`fileResolver` kept as a
presence flag). -/
structure Options where
  bundlerURL : Option String
  hasFileResolver : Bool
  skipEval : Bool
deriving DecidableEq, Repr

/-- The engine handle created in `setupFrame`. The engine is an external
collaborator; we record only the configured bundler URL it was given
(engine-side URL defaulting happens outside this repository). -/
structure Manager where
  bundlerURL : Option String
deriving DecidableEq, Repr

/-- Full instance state of the provider: React `State` (files, paths,
iframe presence, manager state, errors, status) together with the class
fields `props` and `manager`. `managerState` and `status` can be set to an
absent message field, hence `Option`. -/
structure ProviderState where
  props : Props
  manager : Option Manager
  files : Files
  browserPath : String
  openedPath : String
  iframe : Bool
  managerState : Option String
  errors : List IModuleError
  status : Option String
deriving DecidableEq, Repr

/-- The data part of the context snapshot built by `_getSandpackState`
(`ISandpackContext` minus its function members). -/
structure ISandpackContext where
  files : Files
  openedPath : String
  browserPath : String
  errors : List IModuleError
  managerState : Option String
  managerStatus : Option String
  browserFrame : Bool
  bundlerURL : Option String
deriving DecidableEq, Repr

/-- Observable interactions with the outside world: the channel
subscription, engine calls, and change-callback invocations. -/
inductive Effect where
  | listen : Effect
  | createManager : Files → Option String → Option Bool → Options → Effect
  | onFileChange : Files → ISandpackContext → Effect
  | updatePreview : Option Bool → Files → Option String → Effect
  | updateOptions : Options → Effect
  | dispatchGetTranspilerContext : Effect
  | unlisten : Effect
deriving DecidableEq, Repr

/-- Tests whether an effect is an engine preview update. -/
def isPreviewEffect : Effect → Bool
  | Effect.updatePreview _ _ _ => true
  | _ => false

/-- Tests whether an effect is a change-callback invocation. -/
def isChangeEffect : Effect → Bool
  | Effect.onFileChange _ _ => true
  | _ => false

/-- Tests whether an effect is an engine `updateOptions` call. -/
def isUpdateOptionsEffect : Effect → Bool
  | Effect.updateOptions _ => true
  | _ => false

/-- JS `a || b` on an optional string: `undefined` and `''` are falsy. -/
def jsOrString (a : Option String) (b : String) : String :=
  match a with
  | some s => if s = "" then b else s
  | none => b

/-- The object `{name: 'run', main: entry, dependencies}` built by
`createMissingPackageJSON` before serialization. -/
structure PackageJSON where
  name : String
  main : String
  dependencies : Deps
deriving DecidableEq, Repr

/-- One hex digit, lower case, as produced by JSON string escaping. -/
def hexDigit (n : Nat) : Char :=
  if n < 10 then Char.ofNat (48 + n) else Char.ofNat (87 + n)

/-- Four-digit hex rendering used in `\u00XX` escapes. -/
def hex4 (n : Nat) : String :=
  String.mk [hexDigit (n / 4096 % 16), hexDigit (n / 256 % 16),
             hexDigit (n / 16 % 16), hexDigit (n % 16)]

/-- JSON escaping of one character, as `JSON.stringify` performs it. -/
def jsonEscapeChar (c : Char) : String :=
  if c = '"' then "\\\""
  else if c = '\\' then "\\\\"
  else if c = '\n' then "\\n"
  else if c = '\t' then "\\t"
  else if c = '\r' then "\\r"
  else if c = '\x08' then "\\b"
  else if c = '\x0c' then "\\f"
  else if c.toNat < 32 then "\\u" ++ hex4 c.toNat
  else String.singleton c

/-- A JSON string literal: `JSON.stringify` of a string value. -/
def jsonQuote (s : String) : String :=
  "\"" ++ String.join (s.toList.map jsonEscapeChar) ++ "\""

/-- `JSON.stringify` at indent 2 of the dependency record, as nested one
level inside the package object (`\x7b\x7d` when empty). -/
def stringifyDeps : Deps → String
  | [] => "\x7b\x7d"
  | ds =>
      "\x7b\n"
        ++ String.intercalate ",\n"
             (ds.map fun kv => "    " ++ jsonQuote kv.1 ++ ": " ++ jsonQuote kv.2)
        ++ "\n  \x7d"

/-- `JSON.stringify(pkg, null, 2)` for the synthesized package object. -/
def stringifyPackageJSON (p : PackageJSON) : String :=
  "\x7b\n  \"name\": " ++ jsonQuote p.name
    ++ ",\n  \"main\": " ++ jsonQuote p.main
    ++ ",\n  \"dependencies\": " ++ stringifyDeps p.dependencies
    ++ "\n\x7d"

/-- `createMissingPackageJSON(files, dependencies, entry)`: when no entry is
present at `/package.json`, either fail (no dependencies, or no/empty entry
— JS `!entry` is true for `''`) or add a serialized
`{name: 'run', main: entry, dependencies}` descriptor; dependencies are
checked first, as in the source. -/
def createMissingPackageJSON (files : Files) (dependencies : Option Deps)
    (entry : Option String) : Except String Files :=
  match lookupFile "/package.json" files with
  | some _ => Except.ok files
  | none =>
      match dependencies, entry with
      | none, _ =>
          Except.error
            "No dependencies specified, please specify either a package.json or dependencies."
      | some _, none =>
          Except.error
            "No entry specified, please specify either a package.json with 'main' field or dependencies."
      | some deps, some e =>
          if e = "" then
            Except.error
              "No entry specified, please specify either a package.json with 'main' field or dependencies."
          else
            Except.ok
              (setFile "/package.json"
                (IFile.mk (stringifyPackageJSON (PackageJSON.mk "run" e deps))) files)

/-- `getOptions()`: the adapter options derived from current props. -/
def getOptions (p : Props) : Options :=
  Options.mk p.bundlerURL p.hasFileResolver p.skipEval

/-- The `constructor`: builds the initial state (synthesizing the package
descriptor, applying the JS `||` defaults for the two paths) and registers
the channel listener; a descriptor synthesis failure is thrown before the
listener is registered, so the effect trace of a failed construction is
empty. -/
def construct (p : Props) : List Effect × Except String ProviderState :=
  match createMissingPackageJSON p.files p.dependencies p.entry with
  | Except.error e => ([], Except.error e)
  | Except.ok fs =>
      ([Effect.listen],
       Except.ok
         { props := p
           manager := none
           files := fs
           browserPath := jsOrString p.initialPath "/"
           openedPath := jsOrString p.openedPath (jsOrString p.entry "/index.js")
           iframe := false
           managerState := none
           errors := []
           status := some "initializing" })

/-- `handleMessage(m)`: the message dispatch table. `state` replaces the
manager snapshot, `start` clears the error sequence, `status` replaces the
status, `action`/`show-error` appends one error; anything else is ignored. -/
def handleMessage (s : ProviderState) (m : Message) : ProviderState :=
  if m.type = "state" then { s with managerState := m.state }
  else if m.type = "start" then { s with errors := [] }
  else if m.type = "status" then { s with status := m.status }
  else if m.type = "action" ∧ m.action = some "show-error" then
    { s with errors :=
        s.errors ++ [IModuleError.mk m.title m.path m.message m.line m.column] }
  else s

/-- `_getSandpackState()`: the data snapshot handed to the context (and to
the change callback). `bundlerURL` is the manager's URL when a manager
exists, `undefined` otherwise. -/
def _getSandpackState (s : ProviderState) : ISandpackContext :=
  { files := s.files
    openedPath := s.openedPath
    browserPath := s.browserPath
    errors := s.errors
    managerState := s.managerState
    managerStatus := s.status
    browserFrame := s.iframe
    bundlerURL :=
      match s.manager with
      | some m => m.bundlerURL
      | none => none }

/-- `updateFiles(files)`: stores the new file set, then notifies the change
callback (when configured) with the new set and a snapshot, then — only
when the manager exists — sends `updatePreview` with the new set and the
render configuration. -/
def updateFiles (s : ProviderState) (files : Files) : ProviderState × List Effect :=
  let s2 : ProviderState := { s with files := files }
  let changeFx : List Effect :=
    if s.props.hasOnFileChange then
      [Effect.onFileChange files (_getSandpackState s2)]
    else []
  let previewFx : List Effect :=
    if s.manager.isSome then
      [Effect.updatePreview s.props.showOpenInCodeSandbox files s.props.template]
    else []
  (s2, changeFx ++ previewFx)

/-- `updateCurrentFile(file)`: delegates to `updateFiles` with the file
written at the opened path unless the new code equals the opened entry's
code; `files[openedPath]?.code` is `undefined` when the path is dangling,
and a string is never `===` to `undefined`. -/
def updateCurrentFile (s : ProviderState) (file : IFile) : ProviderState × List Effect :=
  if some file.code ≠ (lookupFile s.openedPath s.files).map (fun f => f.code) then
    updateFiles s (setFile s.openedPath file s.files)
  else
    (s, [])

/-- `openFile(path)`: pure navigation change. -/
def openFile (s : ProviderState) (path : String) : ProviderState :=
  { s with openedPath := path }

/-- Modelled from the spec: `generatePackageJSON` is imported from the
external `smooshpack` package and is not part of this repository; the spec
says the manager is constructed with the "initial files (with synthesized
descriptor)", which `createMissingPackageJSON` expresses. `setupFrame(el)`
runs at iframe mount (`el` non-null), creates the manager with the
synthesized files, the render options and the adapter options, and records
the iframe in state. -/
def setupFrame (s : ProviderState) : Except String (ProviderState × List Effect) :=
  match createMissingPackageJSON s.props.files s.props.dependencies s.props.entry with
  | Except.error e => Except.error e
  | Except.ok fs =>
      Except.ok
        ({ s with manager := some (Manager.mk (getOptions s.props).bundlerURL)
                  iframe := true },
         [Effect.createManager fs s.props.template s.props.showOpenInCodeSandbox
            (getOptions s.props)])

/-- `componentDidUpdate(prevProps)`: `s.props` are the new props. When
files, dependencies, entry or template changed, the descriptor is
resynthesized (which may throw) and the full `updateFiles` path runs; when
additionally — or only — `skipEval` changed and a manager exists, the
engine's options are updated. -/
def componentDidUpdate (s : ProviderState) (prevProps : Props) :
    Except String (ProviderState × List Effect) :=
  if prevProps.files ≠ s.props.files ∨ prevProps.dependencies ≠ s.props.dependencies ∨
      prevProps.entry ≠ s.props.entry ∨ prevProps.template ≠ s.props.template then
    match createMissingPackageJSON s.props.files s.props.dependencies s.props.entry with
    | Except.error e => Except.error e
    | Except.ok newFiles =>
        let r := updateFiles s newFiles
        if r.1.manager.isSome ∧ s.props.skipEval ≠ prevProps.skipEval then
          Except.ok (r.1, r.2 ++ [Effect.updateOptions (getOptions s.props)])
        else
          Except.ok r
  else
    if s.manager.isSome ∧ s.props.skipEval ≠ prevProps.skipEval then
      Except.ok (s, [Effect.updateOptions (getOptions s.props)])
    else
      Except.ok (s, [])

/-- `getManagerTranspilerContext()`: dispatches the request when a manager
exists; the response arrives asynchronously and resolves the promise. -/
def getManagerTranspilerContext (s : ProviderState) : List Effect :=
  match s.manager with
  | some _ => [Effect.dispatchGetTranspilerContext]
  | none => []

/-- `componentWillUnmount()`: detaches the channel listener. -/
def componentWillUnmount (_s : ProviderState) : List Effect :=
  [Effect.unlisten]

/-- One externally triggered operation on a live provider: an inbound
message, a navigation, an editor update, a wholesale file replacement, the
iframe mount, or a props change (which React follows with
`componentDidUpdate(prevProps)`). -/
inductive Op where
  | msg : Message → Op
  | openPath : String → Op
  | updateCurrent : IFile → Op
  | update : Files → Op
  | mountFrame : Op
  | setProps : Props → Op
deriving DecidableEq, Repr

/-- Applies one operation, returning the next state and the emitted
effects (or the thrown configuration error). -/
def applyOp (s : ProviderState) : Op → Except String (ProviderState × List Effect)
  | Op.msg m => Except.ok (handleMessage s m, [])
  | Op.openPath p => Except.ok (openFile s p, [])
  | Op.updateCurrent f => Except.ok (updateCurrentFile s f)
  | Op.update files => Except.ok (updateFiles s files)
  | Op.mountFrame => setupFrame s
  | Op.setProps p2 => componentDidUpdate { s with props := p2 } s.props

/-- Runs a list of operations from a state, accumulating effects. -/
def runOps (s : ProviderState) (fx : List Effect) :
    List Op → Except String (ProviderState × List Effect)
  | [] => Except.ok (s, fx)
  | op :: rest =>
      match applyOp s op with
      | Except.error e => Except.error e
      | Except.ok (s2, fx2) => runOps s2 (fx ++ fx2) rest

/-- Constructs the provider and runs a list of operations: every state so
produced is reachable. -/
def run (p : Props) (ops : List Op) : Except String (ProviderState × List Effect) :=
  match construct p with
  | (_, Except.error e) => Except.error e
  | (fx, Except.ok s) => runOps s fx ops

/-- The file mapping has an entry at `/package.json`. -/
def hasPackageJSON (fs : Files) : Bool :=
  (lookupFile "/package.json" fs).isSome

/-- Operations that the amended descriptor invariant is preserved by: all
of them except a direct `updateFiles` whose argument lacks the key. -/
def opKeepsDescriptor : Op → Bool
  | Op.update files => hasPackageJSON files
  | _ => true

/-! Concrete inputs used by the closed witness and counterexample theorems. -/

/-- A sample source file. -/
def fileA : IFile := IFile.mk "const a = 1;"

/-- A sample hand-written package descriptor file. -/
def pkgFile : IFile := IFile.mk "\x7b \"name\": \"app\" \x7d"

/-- A file set that already contains a package descriptor. -/
def filesWithPkg : Files := [("/index.js", fileA), ("/package.json", pkgFile)]

/-- A sample dependency mapping. -/
def depsEx : Deps := [("react", "16.8.0")]

/-- A sample engine handle. -/
def managerEx : Manager := Manager.mk none

/-- Baseline props: descriptor present, change callback configured. -/
def baseProps : Props :=
  { files := filesWithPkg
    initialPath := none
    entry := some "/index.js"
    openedPath := none
    dependencies := none
    bundlerURL := none
    skipEval := false
    template := none
    showOpenInCodeSandbox := none
    hasOnFileChange := true
    hasFileResolver := false }

/-- A baseline mounted provider state. -/
def baseState : ProviderState :=
  { props := baseProps
    manager := some managerEx
    files := filesWithPkg
    browserPath := "/"
    openedPath := "/index.js"
    iframe := true
    managerState := none
    errors := []
    status := some "idle" }

/-- A replacement file set. -/
def newFilesEx : Files := [("/app.js", IFile.mk "app")]

/-- Props with neither a package descriptor nor dependencies. -/
def noPkgProps : Props :=
  { baseProps with files := [("/index.js", fileA)], dependencies := none, entry := none }

/-- A file set without a package descriptor. -/
def c3Files : Files := [("/index.js", fileA)]

/-- Props whose file set carries its own descriptor and no change callback. -/
def cexProps : Props :=
  { baseProps with files := [("/package.json", pkgFile)], hasOnFileChange := false }

/-- Previous props for the eval-skip-only update. -/
def props8old : Props := baseProps

/-- New props differing from `props8old` only in `skipEval`. -/
def props8new : Props := { baseProps with skipEval := true }

/-- Mounted state carrying the new props of the eval-skip-only update. -/
def state8 : ProviderState := { baseState with props := props8new }

/-- A state whose opened path has no entry in the file set. -/
def danglingState : ProviderState := { baseState with openedPath := "/missing.js" }

/-- A message of an unrecognized kind. -/
def mkMsg (t : String) : Message :=
  Message.mk t none none none none none none none none

/-- An unrecognized message. -/
def unknownMsg : Message := mkMsg "console"

/-- A build-start message. -/
def startMsg : Message := mkMsg "start"

/-- A sample accumulated error. -/
def errA : IModuleError :=
  IModuleError.mk (some "t") (some "/p") (some "m") (some 1) (some 2)

/-- A state with a nonempty error sequence. -/
def errState : ProviderState := { baseState with errors := [errA] }

/-- A first error-report message. -/
def errMsg1 : Message :=
  { mkMsg "action" with action := some "show-error", title := some "e1" }

/-- A second error-report message. -/
def errMsg2 : Message :=
  { mkMsg "action" with action := some "show-error", title := some "e2" }

/-! Helper lemmas about the map operations and the descriptor invariant. -/

/-- Writing a key makes it readable. -/
theorem lookupFile_setFile_self (path : String) (file : IFile) :
    ∀ fs : Files, lookupFile path (setFile path file fs) = some file
  | [] => by simp [setFile, lookupFile]
  | (k, v) :: rest => by
      by_cases hk : k = path
      · simp [setFile, hk, lookupFile]
      · simp [setFile, hk, lookupFile, lookupFile_setFile_self path file rest]

/-- Writing one key leaves every other key unchanged. -/
theorem lookupFile_setFile_ne (q path : String) (file : IFile) (hq : q ≠ path) :
    ∀ fs : Files, lookupFile q (setFile path file fs) = lookupFile q fs
  | [] => by
      have hpq : ¬ path = q := fun h => hq h.symm
      simp [setFile, lookupFile, hpq]
  | (k, v) :: rest => by
      by_cases hk : k = path
      · subst hk
        have hpq : ¬ k = q := fun h => hq h.symm
        simp [setFile, lookupFile, hpq]
      · simp [setFile, hk, lookupFile, lookupFile_setFile_ne q path file hq rest]

/-- The descriptor entry survives any single-key write. -/
theorem hasPackageJSON_setFile (path : String) (file : IFile) (fs : Files)
    (h : hasPackageJSON fs = true) : hasPackageJSON (setFile path file fs) = true := by
  by_cases hp : path = "/package.json"
  · subst hp
    simp [hasPackageJSON, lookupFile_setFile_self]
  · unfold hasPackageJSON
    rw [lookupFile_setFile_ne _ _ _ (fun h2 => hp h2.symm)]
    exact h

/-- Message handling never changes the file mapping. -/
theorem handleMessage_files (s : ProviderState) (m : Message) :
    (handleMessage s m).files = s.files := by
  unfold handleMessage
  split
  · rfl
  · split
    · rfl
    · split
      · rfl
      · split
        · rfl
        · rfl

/-- A successful descriptor synthesis always yields a mapping containing
the descriptor key. -/
theorem createMissingPackageJSON_hasPkg (files : Files) (deps : Option Deps)
    (e : Option String) (fs : Files)
    (h : createMissingPackageJSON files deps e = Except.ok fs) :
    hasPackageJSON fs = true := by
  unfold createMissingPackageJSON at h
  split at h
  · rename_i v hv
    cases h
    simp [hasPackageJSON, hv]
  · rename_i hv
    split at h
    · cases h
    · cases h
    · rename_i d e2
      split at h
      · cases h
      · cases h
        simp [hasPackageJSON, lookupFile_setFile_self]

/-- The editor-update operation preserves the descriptor entry. -/
theorem updateCurrentFile_hasPkg (s : ProviderState) (f : IFile)
    (h : hasPackageJSON s.files = true) :
    hasPackageJSON (updateCurrentFile s f).1.files = true := by
  unfold updateCurrentFile
  split
  · show hasPackageJSON (updateFiles s (setFile s.openedPath f s.files)).1.files = true
    show hasPackageJSON (setFile s.openedPath f s.files) = true
    exact hasPackageJSON_setFile _ _ _ h
  · exact h

/-- A successful property-change synchronization preserves the descriptor
entry. -/
theorem componentDidUpdate_hasPkg (s : ProviderState) (prev : Props)
    (s2 : ProviderState) (fx : List Effect) (h : hasPackageJSON s.files = true)
    (hok : componentDidUpdate s prev = Except.ok (s2, fx)) :
    hasPackageJSON s2.files = true := by
  unfold componentDidUpdate at hok
  split at hok
  · split at hok
    · cases hok
    · rename_i newFiles hnew
      dsimp only at hok
      split at hok
      · cases hok
        exact createMissingPackageJSON_hasPkg _ _ _ _ hnew
      · cases hok
        exact createMissingPackageJSON_hasPkg _ _ _ _ hnew
  · split at hok
    · cases hok
      exact h
    · cases hok
      exact h

/-! Claim theorems. -/

/-- Claim C3: for every file set without a '/package.json' key, non-empty
dependency mapping and entry path, `createMissingPackageJSON` adds exactly
the serialized `name: run / main: entry / dependencies` descriptor at
'/package.json' — whose `main` field is the supplied entry and whose
`dependencies` field is the supplied mapping exactly — and carries every
pre-existing entry over unchanged. -/
theorem c3_createMissingPackageJSON_synthesis (files : Files) (deps : Deps)
    (e : String) (hnopkg : lookupFile "/package.json" files = none)
    (_hdeps : deps ≠ []) (hentry : e ≠ "") :
    createMissingPackageJSON files (some deps) (some e) =
      Except.ok (setFile "/package.json"
        (IFile.mk (stringifyPackageJSON (PackageJSON.mk "run" e deps))) files) ∧
    (PackageJSON.mk "run" e deps).main = e ∧
    (PackageJSON.mk "run" e deps).dependencies = deps ∧
    ∀ k v, lookupFile k files = some v →
      lookupFile k (setFile "/package.json"
        (IFile.mk (stringifyPackageJSON (PackageJSON.mk "run" e deps))) files) = some v := by
  refine ⟨?_, rfl, rfl, ?_⟩
  · unfold createMissingPackageJSON
    rw [hnopkg]
    simp [hentry]
  · intro k v hv
    have hk : k ≠ "/package.json" := by
      intro h
      rw [h, hnopkg] at hv
      exact Option.noConfusion hv
    rw [lookupFile_setFile_ne k "/package.json" _ hk]
    exact hv

/-- Claim C3 witness: the synthesis theorem applied to a concrete file set,
dependency mapping and entry. -/
theorem c3_witness :
    lookupFile "/package.json" c3Files = none ∧ depsEx ≠ [] ∧ "/index.js" ≠ "" ∧
    (createMissingPackageJSON c3Files (some depsEx) (some "/index.js") =
        Except.ok (setFile "/package.json"
          (IFile.mk (stringifyPackageJSON (PackageJSON.mk "run" "/index.js" depsEx)))
          c3Files) ∧
      (PackageJSON.mk "run" "/index.js" depsEx).main = "/index.js" ∧
      (PackageJSON.mk "run" "/index.js" depsEx).dependencies = depsEx ∧
      ∀ k v, lookupFile k c3Files = some v →
        lookupFile k (setFile "/package.json"
          (IFile.mk (stringifyPackageJSON (PackageJSON.mk "run" "/index.js" depsEx)))
          c3Files) = some v) :=
  ⟨by decide, by decide, by decide,
   c3_createMissingPackageJSON_synthesis c3Files depsEx "/index.js" (by decide)
     (by decide) (by decide)⟩

/-- Claim C4: when the file set has no '/package.json' key and the
dependency mapping or the entry is absent, construction throws a
configuration error with an empty effect trace: no listener, no manager,
no message to the engine. -/
theorem c4_construct_config_error (p : Props)
    (hnopkg : lookupFile "/package.json" p.files = none)
    (hmissing : p.dependencies = none ∨ p.entry = none) :
    (construct p).1 = [] ∧ ∃ e, (construct p).2 = Except.error e := by
  have herr : ∃ e, createMissingPackageJSON p.files p.dependencies p.entry =
      Except.error e := by
    unfold createMissingPackageJSON
    rw [hnopkg]
    rcases hmissing with h | h
    · rw [h]
      exact ⟨_, rfl⟩
    · rw [h]
      cases hd : p.dependencies with
      | none => exact ⟨_, rfl⟩
      | some d => exact ⟨_, rfl⟩
  obtain ⟨e, he⟩ := herr
  unfold construct
  rw [he]
  exact ⟨rfl, ⟨e, rfl⟩⟩

/-- Claim C4 witness: the configuration-error theorem applied to concrete
props lacking both descriptor and dependencies. -/
theorem c4_witness :
    lookupFile "/package.json" noPkgProps.files = none ∧
    noPkgProps.dependencies = none ∧
    ((construct noPkgProps).1 = [] ∧ ∃ e, (construct noPkgProps).2 = Except.error e) :=
  ⟨by decide, by decide,
   c4_construct_config_error noPkgProps (by decide) (Or.inl (by decide))⟩

/-- Claim C5: updating the current file with content equal to the opened
entry's content leaves the whole state unchanged and emits no effect — no
engine call and no change-callback invocation. -/
theorem c5_updateCurrentFile_noop (s : ProviderState) (file g : IFile)
    (hopen : lookupFile s.openedPath s.files = some g) (heq : file.code = g.code) :
    updateCurrentFile s file = (s, []) := by
  unfold updateCurrentFile
  rw [hopen]
  simp [heq]

/-- Claim C5 witness: the no-op theorem applied to a concrete state whose
opened file is re-submitted verbatim. -/
theorem c5_witness :
    lookupFile baseState.openedPath baseState.files = some fileA ∧
    fileA.code = fileA.code ∧
    updateCurrentFile baseState fileA = (baseState, []) :=
  ⟨by decide, rfl, c5_updateCurrentFile_noop baseState fileA fileA (by decide) rfl⟩

/-- Claim C6: a 'start' message empties the error sequence, whatever it
contained, and changes no other state field. -/
theorem c6_start_clears_errors (s : ProviderState) (m : Message)
    (h : m.type = "start") :
    handleMessage s m = { s with errors := [] } := by
  unfold handleMessage
  rw [h]
  simp

/-- Claim C6 witness: the clearing theorem applied to a concrete state with
a nonempty error sequence. -/
theorem c6_witness :
    startMsg.type = "start" ∧
    handleMessage errState startMsg = { errState with errors := [] } :=
  ⟨rfl, c6_start_clears_errors errState startMsg rfl⟩

/-- Claim C7: from an empty error sequence, two consecutive
'action'/'show-error' messages yield exactly the two reported errors in
arrival order; in general each such message appends exactly one entry at
the end. -/
theorem c7_show_error_appends (s : ProviderState) (m1 m2 : Message)
    (h0 : s.errors = [])
    (h1t : m1.type = "action") (h1a : m1.action = some "show-error")
    (h2t : m2.type = "action") (h2a : m2.action = some "show-error") :
    (handleMessage (handleMessage s m1) m2).errors =
      [IModuleError.mk m1.title m1.path m1.message m1.line m1.column,
       IModuleError.mk m2.title m2.path m2.message m2.line m2.column] ∧
    (handleMessage (handleMessage s m1) m2).errors.length = 2 ∧
    ∀ t m, m.type = "action" → m.action = some "show-error" →
      (handleMessage t m).errors =
        t.errors ++ [IModuleError.mk m.title m.path m.message m.line m.column] := by
  have happ : ∀ t m, m.type = "action" → m.action = some "show-error" →
      (handleMessage t m).errors =
        t.errors ++ [IModuleError.mk m.title m.path m.message m.line m.column] := by
    intro t m ht ha
    unfold handleMessage
    rw [ht, ha]
    simp
  have h2 : (handleMessage (handleMessage s m1) m2).errors =
      [IModuleError.mk m1.title m1.path m1.message m1.line m1.column,
       IModuleError.mk m2.title m2.path m2.message m2.line m2.column] := by
    rw [happ _ m2 h2t h2a, happ s m1 h1t h1a, h0]
    rfl
  exact ⟨h2, by rw [h2]; rfl, happ⟩

/-- Claim C7 witness: the append theorem applied to two concrete
error-report messages arriving at a state with no errors. -/
theorem c7_witness :
    baseState.errors = [] ∧ errMsg1.type = "action" ∧
    errMsg1.action = some "show-error" ∧ errMsg2.type = "action" ∧
    errMsg2.action = some "show-error" ∧
    ((handleMessage (handleMessage baseState errMsg1) errMsg2).errors =
      [IModuleError.mk errMsg1.title errMsg1.path errMsg1.message errMsg1.line
         errMsg1.column,
       IModuleError.mk errMsg2.title errMsg2.path errMsg2.message errMsg2.line
         errMsg2.column] ∧
    (handleMessage (handleMessage baseState errMsg1) errMsg2).errors.length = 2 ∧
    ∀ t m, m.type = "action" → m.action = some "show-error" →
      (handleMessage t m).errors =
        t.errors ++ [IModuleError.mk m.title m.path m.message m.line m.column]) :=
  ⟨rfl, rfl, rfl, rfl, rfl,
   c7_show_error_appends baseState errMsg1 errMsg2 rfl rfl rfl rfl rfl⟩

/-- Claim C9: a message whose kind is none of 'state', 'start', 'status',
or 'action' with action 'show-error' leaves the state unchanged (and the
handler is total, so nothing is thrown). -/
theorem c9_unknown_message_ignored (s : ProviderState) (m : Message)
    (h1 : m.type ≠ "state") (h2 : m.type ≠ "start") (h3 : m.type ≠ "status")
    (h4 : ¬(m.type = "action" ∧ m.action = some "show-error")) :
    handleMessage s m = s := by
  unfold handleMessage
  rw [if_neg h1, if_neg h2, if_neg h3, if_neg h4]

/-- Claim C9 witness: the ignore theorem applied to a concrete message of
an unrecognized kind. -/
theorem c9_witness :
    unknownMsg.type ≠ "state" ∧ unknownMsg.type ≠ "start" ∧
    unknownMsg.type ≠ "status" ∧
    ¬(unknownMsg.type = "action" ∧ unknownMsg.action = some "show-error") ∧
    handleMessage baseState unknownMsg = baseState :=
  ⟨by decide, by decide, by decide, by decide,
   c9_unknown_message_ignored baseState unknownMsg (by decide) (by decide)
     (by decide) (by decide)⟩

/-- Claim C10: when the opened path has no entry, `updateCurrentFile` does
not short-circuit — the code/undefined comparison is always unequal — and
runs the full `updateFiles` path, inserting the file at the opened path. -/
theorem c10_dangling_openedPath_inserts (s : ProviderState) (file : IFile)
    (h : lookupFile s.openedPath s.files = none) :
    updateCurrentFile s file = updateFiles s (setFile s.openedPath file s.files) ∧
    lookupFile s.openedPath (updateCurrentFile s file).1.files = some file := by
  have hcond : some file.code ≠ (lookupFile s.openedPath s.files).map
      (fun f => f.code) := by
    rw [h]
    simp
  constructor
  · unfold updateCurrentFile
    rw [if_pos hcond]
  · unfold updateCurrentFile
    rw [if_pos hcond]
    show lookupFile s.openedPath (setFile s.openedPath file s.files) = some file
    exact lookupFile_setFile_self s.openedPath file s.files

/-- Claim C10 witness: the insertion theorem applied to a concrete state
whose opened path is dangling. -/
theorem c10_witness :
    lookupFile danglingState.openedPath danglingState.files = none ∧
    (updateCurrentFile danglingState fileA =
        updateFiles danglingState
          (setFile danglingState.openedPath fileA danglingState.files) ∧
      lookupFile danglingState.openedPath
        (updateCurrentFile danglingState fileA).1.files = some fileA) :=
  ⟨by decide, c10_dangling_openedPath_inserts danglingState fileA (by decide)⟩

/-- Claim C2: once the engine manager exists, one `updateFiles` call stores
the new file set, emits exactly one `updatePreview` carrying the new files
and the render configuration, and emits exactly one change-callback
invocation with the new set and the state snapshot when the callback is
configured (none otherwise). -/
theorem c2_updateFiles_effects (s : ProviderState) (files : Files) (m : Manager)
    (hm : s.manager = some m) :
    (updateFiles s files).1 = { s with files := files } ∧
    (updateFiles s files).2.filter isPreviewEffect =
      [Effect.updatePreview s.props.showOpenInCodeSandbox files s.props.template] ∧
    (s.props.hasOnFileChange = true →
      (updateFiles s files).2.filter isChangeEffect =
        [Effect.onFileChange files (_getSandpackState { s with files := files })]) ∧
    (s.props.hasOnFileChange = false →
      (updateFiles s files).2.filter isChangeEffect = []) := by
  refine ⟨rfl, ?_, ?_, ?_⟩ <;>
    cases hc : s.props.hasOnFileChange <;>
      simp [updateFiles, hm, hc, isPreviewEffect, isChangeEffect]

/-- Claim C2 witness: the effect theorem applied to a concrete mounted
state with a configured change callback and a concrete new file set. -/
theorem c2_witness :
    baseState.manager = some managerEx ∧
    ((updateFiles baseState newFilesEx).1 = { baseState with files := newFilesEx } ∧
      (updateFiles baseState newFilesEx).2.filter isPreviewEffect =
        [Effect.updatePreview baseState.props.showOpenInCodeSandbox newFilesEx
           baseState.props.template] ∧
      (baseState.props.hasOnFileChange = true →
        (updateFiles baseState newFilesEx).2.filter isChangeEffect =
          [Effect.onFileChange newFilesEx
             (_getSandpackState { baseState with files := newFilesEx })]) ∧
      (baseState.props.hasOnFileChange = false →
        (updateFiles baseState newFilesEx).2.filter isChangeEffect = [])) :=
  ⟨rfl, c2_updateFiles_effects baseState newFilesEx managerEx rfl⟩

/-- Claim C8: a props update changing only `skipEval` (files, dependencies,
entry and template unchanged), on a mounted provider, leaves the state
untouched and emits exactly one engine `updateOptions` call with the new
adapter options — no `updatePreview`, no descriptor resynthesis. -/
theorem c8_skipEval_only_updateOptions (s : ProviderState) (prev : Props)
    (m : Manager) (hf : prev.files = s.props.files)
    (hd : prev.dependencies = s.props.dependencies)
    (he : prev.entry = s.props.entry) (ht : prev.template = s.props.template)
    (hm : s.manager = some m) (hs : s.props.skipEval ≠ prev.skipEval) :
    componentDidUpdate s prev =
      Except.ok (s, [Effect.updateOptions (getOptions s.props)]) := by
  unfold componentDidUpdate
  have hcond : ¬(prev.files ≠ s.props.files ∨
      prev.dependencies ≠ s.props.dependencies ∨
      prev.entry ≠ s.props.entry ∨ prev.template ≠ s.props.template) := by
    simp [hf, hd, he, ht]
  have hm2 : s.manager.isSome = true := by
    rw [hm]
    rfl
  rw [if_neg hcond, if_pos (And.intro hm2 hs)]

/-- Claim C8 witness: the options-only theorem applied to concrete old and
new props differing only in `skipEval`, on a mounted state. -/
theorem c8_witness :
    props8old.files = state8.props.files ∧
    props8old.dependencies = state8.props.dependencies ∧
    props8old.entry = state8.props.entry ∧
    props8old.template = state8.props.template ∧
    state8.manager = some managerEx ∧
    state8.props.skipEval ≠ props8old.skipEval ∧
    componentDidUpdate state8 props8old =
      Except.ok (state8, [Effect.updateOptions (getOptions state8.props)]) :=
  ⟨rfl, rfl, rfl, rfl, rfl, by decide,
   c8_skipEval_only_updateOptions state8 props8old managerEx rfl rfl rfl rfl rfl
     (by decide)⟩

/-- Claim C1 counterexample: from a successful construction whose file
mapping does contain '/package.json', mounting the frame and then calling
`updateFiles` with an empty file set reaches a state whose file mapping has
no '/package.json' entry — `updateFiles` performs no descriptor
resynthesis, so the invariant does not survive arbitrary `updateFiles`
calls. -/
theorem c1_counterexample :
    ((construct cexProps).2.toOption.map (fun s => hasPackageJSON s.files)) =
      some true ∧
    ((run cexProps [Op.mountFrame, Op.update []]).toOption.map
      (fun r => hasPackageJSON r.1.files)) = some false := by
  constructor
  · rfl
  · rfl

/-- Claim C1, amended: the '/package.json' entry is present in the state
produced by every successful construction, and is preserved by every
operation — message handling, navigation, editor update, frame mount,
property synchronization — except a direct `updateFiles` whose argument
lacks the key (`opKeepsDescriptor`). -/
theorem c1_descriptor_invariant_amended :
    (∀ p fx s0, construct p = (fx, Except.ok s0) →
      hasPackageJSON s0.files = true) ∧
    (∀ s op s2 fx2, hasPackageJSON s.files = true → opKeepsDescriptor op = true →
      applyOp s op = Except.ok (s2, fx2) → hasPackageJSON s2.files = true) := by
  constructor
  · intro p fx s0 hc
    unfold construct at hc
    split at hc
    · simp at hc
    · rename_i fs hfs
      simp only [Prod.mk.injEq] at hc
      obtain ⟨h1, h2⟩ := hc
      simp only [Except.ok.injEq] at h2
      subst h2
      exact createMissingPackageJSON_hasPkg _ _ _ _ hfs
  · intro s op s2 fx2 h hk hap
    cases op with
    | msg m =>
        simp only [applyOp, Except.ok.injEq, Prod.mk.injEq] at hap
        obtain ⟨hA, hB⟩ := hap
        subst hA
        rw [handleMessage_files]
        exact h
    | openPath p =>
        simp only [applyOp, Except.ok.injEq, Prod.mk.injEq] at hap
        obtain ⟨hA, hB⟩ := hap
        subst hA
        exact h
    | updateCurrent f =>
        simp only [applyOp, Except.ok.injEq] at hap
        have h1 : (updateCurrentFile s f).1 = s2 := by
          rw [hap]
        rw [← h1]
        exact updateCurrentFile_hasPkg s f h
    | update files =>
        simp only [applyOp, Except.ok.injEq] at hap
        simp only [opKeepsDescriptor] at hk
        have h1 : (updateFiles s files).1 = s2 := by
          rw [hap]
        rw [← h1]
        exact hk
    | mountFrame =>
        simp only [applyOp] at hap
        unfold setupFrame at hap
        split at hap
        · cases hap
        · simp only [Except.ok.injEq, Prod.mk.injEq] at hap
          obtain ⟨hA, hB⟩ := hap
          subst hA
          exact h
    | setProps p2 =>
        simp only [applyOp] at hap
        exact componentDidUpdate_hasPkg { s with props := p2 } s.props s2 fx2 h hap

/-- Claim C1 (amended) witness: the preservation theorem applied to a
concrete state containing the descriptor and a concrete navigation
operation. -/
theorem c1_descriptor_invariant_amended_witness :
    hasPackageJSON baseState.files = true ∧
    opKeepsDescriptor (Op.openPath "/app.js") = true ∧
    applyOp baseState (Op.openPath "/app.js") =
      Except.ok (openFile baseState "/app.js", []) ∧
    hasPackageJSON (openFile baseState "/app.js").files = true :=
  ⟨by decide, rfl, rfl,
   c1_descriptor_invariant_amended.2 baseState (Op.openPath "/app.js")
     (openFile baseState "/app.js") [] (by decide) rfl rfl⟩
